import Mathlib

/-!
Shallow embedding of the Identity-BB authentication/session core
(`services/authService.js`, `middleware/auth.js`, `services/sessionService.js`,
`controllers/sessionController.js`, `controllers/authController.js`,
`config/security.js`).

Timestamps are modelled as `Int` milliseconds since epoch (the JS `Date`
values compared with `<`/`>`).  The relational store is modelled as lists of
rows; SQL `SELECT ... WHERE` is `List.filter`, `UPDATE ... WHERE` is a
pointwise `List.map`, `INSERT` appends.  Values produced by the environment
(clock, uuidv4, jwt.sign, bcrypt.compare) are passed in explicitly through
environment records.
-/

/-- A row of the `users` table, fields as selected by the auth service. -/
structure User where
  id : String
  nationalId : String
  name : String
  email : String
  password : String
  role : String
  status : String
  failedAttempts : Nat
  lockedUntil : Option Int
  lastLogin : Option Int
  deriving DecidableEq, Repr

/-- A row of the `sessions` table. -/
structure Session where
  id : String
  userId : String
  token : String
  createdAt : Int
  expiresAt : Int
  lastActivity : Int
  isActive : Bool
  ipAddress : Option String
  userAgent : Option String
  loggedOutAt : Option Int
  deriving DecidableEq, Repr

/-- Request metadata threaded through the auth service (`metadata.ip`,
`metadata.userAgent`). -/
structure Metadata where
  ip : Option String
  userAgent : Option String
  deriving DecidableEq, Repr

/-- The structured `details` JSON document of an audit row: either the
`{ nationalId, reason }` object written by `logFailedAttempt`, the
serialized request metadata written by `logUserAction`, or the
`{ sessionId }` object written by `logout`. -/
inductive AuditDetails where
  | failedLogin (nationalId reason : String)
  | meta (m : Metadata)
  | sessionRef (sessionId : String)
  deriving DecidableEq, Repr

/-- A row of the `audit_logs` table. -/
structure AuditEntry where
  id : String
  userId : Option String
  action : String
  details : AuditDetails
  ipAddress : Option String
  userAgent : Option String
  timestamp : Int
  deriving DecidableEq, Repr

/-- The durable state shared by all operations. -/
structure Store where
  users : List User
  sessions : List Session
  auditLogs : List AuditEntry
  deriving DecidableEq, Repr

/-- JS truthiness of an optional string: `null`/`undefined` and `""` are
falsy. -/
def jsTruthy : Option String → Bool
  | none => false
  | some s => s ≠ ""

/-- Embeds `user.lockedUntil && new Date() < user.lockedUntil`. -/
def User.isLockedAt (u : User) (now : Int) : Bool :=
  match u.lockedUntil with
  | none => false
  | some t => now < t

namespace AuthService

/-- Environment of a single `login` call: the clock, the configured
lockout policy (`MAX_LOGIN_ATTEMPTS`, default 5; `LOCKOUT_TIME` minutes,
default 30), the bcrypt comparison oracle, and the fresh values minted
during the call (uuidv4 session/audit ids, jwt.sign outputs). -/
structure LoginEnv where
  now : Int
  maxAttempts : Nat
  lockoutTime : Int
  verifyPassword : String → String → Bool
  freshSessionId : String
  freshAuditId : String
  accessToken : String
  refreshToken : String

/-- The access/refresh token pair returned by `generateTokens`. -/
structure Tokens where
  accessToken : String
  refreshToken : String
  deriving DecidableEq, Repr

/-- The sanitized user summary returned by a successful `login`. -/
structure UserView where
  id : String
  nationalId : String
  name : String
  email : String
  role : String
  lastLogin : Option Int
  deriving DecidableEq, Repr

/-- Successful `login` result: `{ user, tokens, sessionId }`. -/
structure LoginOk where
  user : UserView
  tokens : Tokens
  sessionId : String
  deriving DecidableEq, Repr

/-- The distinct errors thrown by `login`. -/
inductive LoginError where
  | invalidCredentials
  | accountLocked
  | accountInactive
  deriving DecidableEq, Repr

/-- Embeds `logFailedAttempt(nationalId, reason, metadata)`: INSERT into
`audit_logs` with `userId = NULL` and `action = 'LOGIN_FAILED'`. -/
def logFailedAttempt (auditId : String) (nationalId reason : String)
    (meta : Metadata) (now : Int) (st : Store) : Store :=
  { st with auditLogs := st.auditLogs ++
      [{ id := auditId, userId := none, action := "LOGIN_FAILED",
         details := .failedLogin nationalId reason,
         ipAddress := meta.ip, userAgent := meta.userAgent,
         timestamp := now }] }

/-- Embeds `logUserAction(userId, action, metadata)`: INSERT into `audit_logs`. -/
def logUserAction (auditId : String) (userId : Option String) (action : String)
    (details : AuditDetails) (ip ua : Option String) (now : Int)
    (st : Store) : Store :=
  { st with auditLogs := st.auditLogs ++
      [{ id := auditId, userId := userId, action := action,
         details := details, ipAddress := ip, userAgent := ua,
         timestamp := now }] }

/-- Embeds `handleFailedLogin(userId, nationalId, metadata)`: increment
`failedAttempts`, re-read the row, and when the count has reached
`maxAttempts` set `lockedUntil = now + lockoutTime minutes`; finally log
the failed attempt.  The `status` column is not touched. -/
def handleFailedLogin (env : LoginEnv) (userId nationalId : String)
    (meta : Metadata) (st : Store) : Store :=
  let st1 : Store := { st with users := st.users.map (fun u =>
      if u.id = userId then { u with failedAttempts := u.failedAttempts + 1 }
      else u) }
  let st2 : Store :=
    match st1.users.filter (fun u => u.id = userId) with
    | [] => st1
    | u :: _ =>
      if u.failedAttempts ≥ env.maxAttempts then
        { st1 with users := st1.users.map (fun v =>
            if v.id = userId then
              { v with lockedUntil := some (env.now + env.lockoutTime * 60 * 1000) }
            else v) }
      else st1
  logFailedAttempt env.freshAuditId nationalId "Invalid password" meta env.now st2

/-- Embeds `resetFailedAttempts(userId)`: set `failedAttempts = 0`,
`lockedUntil = NULL`. -/
def resetFailedAttempts (userId : String) (st : Store) : Store :=
  { st with users := st.users.map (fun u =>
      if u.id = userId then { u with failedAttempts := 0, lockedUntil := none }
      else u) }

/-- Embeds `createSession(userId, token, metadata)`: INSERT a session row with a
24-hour expiry, active, `lastActivity = createdAt = now`. -/
def createSession (sessionId : String) (now : Int) (userId token : String)
    (meta : Metadata) (st : Store) : Store :=
  { st with sessions := st.sessions ++
      [{ id := sessionId, userId := userId, token := token,
         createdAt := now, expiresAt := now + 24 * 60 * 60 * 1000,
         lastActivity := now, isActive := true,
         ipAddress := meta.ip, userAgent := meta.userAgent,
         loggedOutAt := none }] }

/-- Embeds `login(nationalId, password, metadata)`, translated step by step from
`AuthService.login`: fetch the user by national id, check the lock, check
the status, verify the password, and on success reset the counters, mint
tokens, create a session, update `lastLogin` and write the audit row. -/
def login (env : LoginEnv) (nationalId password : String) (meta : Metadata)
    (st : Store) : Except LoginError LoginOk × Store :=
  match st.users.filter (fun u => u.nationalId = nationalId) with
  | [] =>
    (.error .invalidCredentials,
     logFailedAttempt env.freshAuditId nationalId "User not found" meta env.now st)
  | user :: _ =>
    if user.isLockedAt env.now then
      (.error .accountLocked,
       logFailedAttempt env.freshAuditId nationalId "Account locked" meta env.now st)
    else if user.status ≠ "active" then
      (.error .accountInactive,
       logFailedAttempt env.freshAuditId nationalId "Account inactive" meta env.now st)
    else if ¬ env.verifyPassword password user.password then
      (.error .invalidCredentials,
       handleFailedLogin env user.id nationalId meta st)
    else
      let st1 := resetFailedAttempts user.id st
      let tokens : Tokens :=
        { accessToken := env.accessToken, refreshToken := env.refreshToken }
      let st2 := createSession env.freshSessionId env.now user.id
        tokens.accessToken meta st1
      let st3 : Store := { st2 with users := st2.users.map (fun u =>
          if u.id = user.id then { u with lastLogin := some env.now } else u) }
      let st4 := logUserAction env.freshAuditId (some user.id) "LOGIN_SUCCESS"
        (.meta meta) meta.ip meta.userAgent env.now st3
      (.ok { user := { id := user.id, nationalId := user.nationalId,
                       name := user.name, email := user.email,
                       role := user.role, lastLogin := user.lastLogin },
             tokens := tokens, sessionId := env.freshSessionId },
       st4)

end AuthService

namespace SecurityConfig

/-- Embeds `SecurityConfig.isStrongPassword`: minimum length (default 8) and at
least one uppercase, one lowercase, one digit, one character of
`!@#$%^&*(),.?":\x7b\x7d|<>`. -/
def isStrongPassword (minLength : Nat) (password : String) : Bool :=
  let hasUpperCase := password.toList.any (fun c => c.isUpper)
  let hasLowerCase := password.toList.any (fun c => c.isLower)
  let hasNumbers := password.toList.any (fun c => c.isDigit)
  let hasSpecialChar := password.toList.any
    (fun c => ("!@#$%^&*(),.?\":\x7b\x7d|<>".toList).contains c)
  password.length ≥ minLength && hasUpperCase && hasLowerCase &&
    hasNumbers && hasSpecialChar

end SecurityConfig

namespace AuthService

/-- Environment of a `register` call: configured minimum password length
(`PASSWORD_MIN_LENGTH`, default 8), the bcrypt hashing oracle, and the
fresh values minted during the call. -/
structure RegisterEnv where
  now : Int
  minLength : Nat
  hashPassword : String → String
  freshUserId : String
  freshSessionId : String
  freshAuditId : String
  accessToken : String
  refreshToken : String

/-- The distinct errors thrown by `register`. -/
inductive RegisterError where
  | userAlreadyExists
  | weakPassword
  deriving DecidableEq, Repr

/-- Embeds `register(userData)`: reject when a user with the same national id or
email exists, reject weak passwords, otherwise insert the new user with
`role='citizen'`, `status='active'`, mint tokens, create a session and
log `USER_REGISTERED`. -/
def register (env : RegisterEnv) (nationalId name email password : String)
    (st : Store) : Except RegisterError LoginOk × Store :=
  match st.users.filter (fun u => u.nationalId = nationalId ∨ u.email = email) with
  | _ :: _ => (.error .userAlreadyExists, st)
  | [] =>
    if ¬ SecurityConfig.isStrongPassword env.minLength password then
      (.error .weakPassword, st)
    else
      let hashedPassword := env.hashPassword password
      let newUser : User :=
        { id := env.freshUserId, nationalId := nationalId, name := name,
          email := email, password := hashedPassword, role := "citizen",
          status := "active", failedAttempts := 0, lockedUntil := none,
          lastLogin := none }
      let st1 : Store := { st with users := st.users ++ [newUser] }
      let tokens : Tokens :=
        { accessToken := env.accessToken, refreshToken := env.refreshToken }
      let st2 := createSession env.freshSessionId env.now env.freshUserId
        tokens.accessToken { ip := none, userAgent := none } st1
      let st3 := logUserAction env.freshAuditId (some env.freshUserId)
        "USER_REGISTERED" (.meta { ip := none, userAgent := none })
        none none env.now st2
      (.ok { user := { id := env.freshUserId, nationalId := nationalId,
                       name := name, email := email, role := "citizen",
                       lastLogin := none },
             tokens := tokens, sessionId := env.freshSessionId },
       st3)

/-- Embeds `logout(userId, sessionId)`: set `isActive = 0, loggedOutAt = NOW()`
on the session row matching both ids (unconditionally, whether or not it
was still active), log `USER_LOGGED_OUT`, and return `true`. -/
def logout (now : Int) (auditId : String) (userId sessionId : String)
    (st : Store) : Bool × Store :=
  let st1 : Store := { st with sessions := st.sessions.map (fun s =>
      if s.id = sessionId ∧ s.userId = userId then
        { s with isActive := false, loggedOutAt := some now }
      else s) }
  let st2 := logUserAction auditId (some userId) "USER_LOGGED_OUT"
    (.sessionRef sessionId) none none now st1
  (true, st2)

/-- The complete list of methods defined on the `AuthService` class in
`services/authService.js`.  There is no `refreshToken` method: JS property
lookup of `authService.refreshToken` yields `undefined`. -/
def methods : List String :=
  ["login", "register", "logout", "generateTokens", "createSession",
   "handleFailedLogin", "resetFailedAttempts", "logFailedAttempt",
   "logSuccessfulLogin", "logUserAction"]

/-- The `refreshToken` member of the auth-service object, as resolved by
JS property lookup: `none`, because the class defines no such method. -/
def refreshTokenMethod : Option (String → Except String String) := none

end AuthService

namespace AuthController

/-- Responses of `AuthController.refreshToken`. -/
inductive RefreshResponse where
  | badRequest (msg : String)
  | ok (accessToken : String)
  | unauthorized (msg : String)
  deriving DecidableEq, Repr

/-- Embeds `AuthController.refreshToken(req, res)`: reject a missing body token
with 400; otherwise invoke `authService.refreshToken`.  Since the service
object has no such method, the invocation throws a `TypeError`, which the
catch block turns into a 401 `Invalid refresh token` response. -/
def refreshToken (body : Option String) : RefreshResponse :=
  if ¬ jsTruthy body then .badRequest "Refresh token is required"
  else
    match AuthService.refreshTokenMethod with
    | none => .unauthorized "Invalid refresh token"
    | some f =>
      match f (body.getD "") with
      | .ok newToken => .ok newToken
      | .error _ => .unauthorized "Invalid refresh token"

end AuthController

/-- Outcome of `jwt.verify(token, JWT_SECRET)`: the decoded payload's `id`
claim, or a thrown `TokenExpiredError`, or any other verification error. -/
inductive JwtResult where
  | ok (id : String)
  | expired
  | invalid
  deriving DecidableEq, Repr

/-- Environment of the `authenticateToken` middleware: the clock and the
JWT verification oracle. -/
structure AuthEnv where
  now : Int
  verifyJwt : String → JwtResult

/-- The resolved principal the middleware attaches as `req.user`. -/
structure Principal where
  id : String
  nationalId : String
  name : String
  email : String
  role : String
  sessionId : String
  deriving DecidableEq, Repr

/-- Outcome of the middleware: call `next()` with a principal, or respond
with an HTTP status and error message. -/
inductive AuthOutcome where
  | proceed (p : Principal)
  | reject (status : Nat) (error : String)
  deriving DecidableEq, Repr

/-- Splits a character list at every space, like the JS
`String.prototype.split(' ')` (adjacent separators yield empty chunks). -/
def splitSpaceAux : List Char → List Char → List (List Char)
  | [], acc => [acc.reverse]
  | c :: cs, acc =>
    if c = ' ' then acc.reverse :: splitSpaceAux cs []
    else splitSpaceAux cs (c :: acc)

/-- The JS `header.split(' ')` on a string. -/
def jsSplitSpace (s : String) : List String :=
  (splitSpaceAux s.toList []).map (fun l => String.mk l)

/-- Embeds `authHeader && authHeader.split(' ')[1]`: the bearer token taken from
the Authorization header, `none` when the header is missing or falsy or
has no second space-separated part. -/
def extractToken : Option String → Option String
  | none => none
  | some h => if h = "" then none else (jsSplitSpace h).get? 1

/-- The `authenticateToken` middleware (`middleware/auth.js`): extract the
bearer token, verify its signature, re-fetch the user (must exist, be
active and not locked), re-fetch the matching active session; an expired
session is flipped inactive and rejected, otherwise `lastActivity` is
touched and the principal is exposed. -/
def authenticateToken (env : AuthEnv) (authHeader : Option String)
    (st : Store) : AuthOutcome × Store :=
  match extractToken authHeader with
  | none => (.reject 401 "Access token required", st)
  | some token =>
    if token = "" then (.reject 401 "Access token required", st)
    else
      match env.verifyJwt token with
      | .invalid => (.reject 403 "Invalid token", st)
      | .expired => (.reject 401 "Token expired", st)
      | .ok decodedId =>
        match st.users.filter (fun u => u.id = decodedId) with
        | [] => (.reject 401 "User not found", st)
        | user :: _ =>
          if user.status ≠ "active" then
            (.reject 401 "Account is not active", st)
          else if user.isLockedAt env.now then
            (.reject 423 "Account is locked", st)
          else
            match st.sessions.filter (fun s =>
                s.userId = user.id ∧ s.token = token ∧ s.isActive = true) with
            | [] => (.reject 401 "Session not found", st)
            | session :: _ =>
              if env.now > session.expiresAt then
                (.reject 401 "Session expired",
                 { st with sessions := st.sessions.map (fun s =>
                     if s.id = session.id then { s with isActive := false }
                     else s) })
              else
                (.proceed { id := user.id, nationalId := user.nationalId,
                            name := user.name, email := user.email,
                            role := user.role, sessionId := session.id },
                 { st with sessions := st.sessions.map (fun s =>
                     if s.id = session.id then { s with lastActivity := env.now }
                     else s) })

namespace SessionService

/-- The WHERE clause of `terminateAllSessions`: the user's active
sessions, excluding `excludeSessionId` when that argument is truthy. -/
def matchesTermination (userId : String) (ex : Option String)
    (s : Session) : Bool :=
  decide (s.userId = userId) && s.isActive &&
    (if jsTruthy ex then decide (s.id ≠ ex.getD "") else true)

/-- Embeds `terminateAllSessions(userId, excludeSessionId)`: flip every matching
row to `isActive = 0, loggedOutAt = NOW()` and report the number of
matched rows (`result.affectedRows`) as `terminatedCount`. -/
def terminateAllSessions (now : Int) (userId : String)
    (excludeSessionId : Option String) (st : Store) : Nat × Store :=
  let flipped := st.sessions.map (fun s =>
    if matchesTermination userId excludeSessionId s then
      { s with isActive := false, loggedOutAt := some now }
    else s)
  ((st.sessions.filter (matchesTermination userId excludeSessionId)).length,
   { st with sessions := flipped })

/-- Embeds `extendSession(sessionId, hours)`: set
`expiresAt = Date.now() + hours·3600000` on the session row when it is
still active, and return `true`. -/
def extendSession (now : Int) (sessionId : String) (hours : Int)
    (st : Store) : Bool × Store :=
  let newExpiresAt := now + hours * 60 * 60 * 1000
  (true,
   { st with sessions := st.sessions.map (fun s =>
       if s.id = sessionId ∧ s.isActive = true then
         { s with expiresAt := newExpiresAt }
       else s) })

end SessionService

namespace SessionController

/-- Responses of `SessionController.extendSession`. -/
inductive ExtendResponse where
  | badRequest (msg : String)
  | ok (extensionHours : Int) (newExpiresAt : Int)
  deriving DecidableEq, Repr

/-- Embeds `SessionController.extendSession(req, res)`: require a session cookie,
compute `parseInt(hours) || 24` (`hours = none` models a missing or
non-numeric body value, whose `parseInt` is `NaN`; `0` is falsy), reject
more than 168 hours, then delegate to the session service. -/
def extendSession (now : Int) (cookieSessionId : Option String)
    (hours : Option Int) (st : Store) : ExtendResponse × Store :=
  if ¬ jsTruthy cookieSessionId then
    (.badRequest "No active session found", st)
  else
    let extensionHours : Int :=
      match hours with
      | none => 24
      | some h => if h = 0 then 24 else h
    if extensionHours > 168 then
      (.badRequest "Cannot extend session for more than 1 week", st)
    else
      let r := SessionService.extendSession now (cookieSessionId.getD "")
        extensionHours st
      (.ok extensionHours (now + extensionHours * 60 * 60 * 1000), r.2)

/-- Embeds `SessionController.terminateAllSessions(req, res)`: delegate to the
session service with the caller's cookie session id as the exclusion, and
report the terminated count. -/
def terminateAllSessions (now : Int) (userId : String)
    (cookieSessionId : Option String) (st : Store) : Nat × Store :=
  SessionService.terminateAllSessions now userId cookieSessionId st

end SessionController

/-! ## Helper lemmas about the list-of-rows store operations -/

/-- An UPDATE keyed on `id` commutes with a SELECT keyed on the same `id`
when the update preserves the `id` column. -/
theorem filter_id_map_update (f : User → User) (hf : ∀ u, (f u).id = u.id)
    (i : String) (l : List User) :
    (l.map (fun u => if u.id = i then f u else u)).filter (fun u => u.id = i)
      = (l.filter (fun u => u.id = i)).map f := by
  induction l with
  | nil => rfl
  | cons a l ih =>
    by_cases h : a.id = i
    · simp [h, hf, ih]
    · simp [h, ih]

/-! ## C3: the lockout check precedes password verification -/

/-- C3: in `login`, the lockout check (`lockedUntil` set and in the
future) is evaluated before password verification, so a locked account
fails with the distinct `accountLocked` error even when the supplied
password is correct, and the outcome does not depend on the password
oracle at all. -/
theorem login_lockout_checked_before_password
    (env : AuthService.LoginEnv) (nid pw : String) (meta : Metadata)
    (st : Store) (u : User) (rest : List User) (t : Int)
    (hn : st.users.filter (fun v => v.nationalId = nid) = u :: rest)
    (hlu : u.lockedUntil = some t) (hnow : env.now < t) :
    (AuthService.login env nid pw meta st).1
        = .error AuthService.LoginError.accountLocked
    ∧ ∀ vp : String → String → Bool,
        AuthService.login { env with verifyPassword := vp } nid pw meta st
          = AuthService.login env nid pw meta st := by
  have hlock : u.isLockedAt env.now = true := by
    simp [User.isLockedAt, hlu, hnow]
  constructor
  · simp [AuthService.login, hn, hlock]
  · intro vp
    simp [AuthService.login, hn, hlock]

/-- Locked user for the C3 witness. -/
def c3User : User :=
  { id := "u1", nationalId := "199012345678", name := "Jane",
    email := "jane@example.com", password := "hashed", role := "citizen",
    status := "active", failedAttempts := 5, lockedUntil := some 2000,
    lastLogin := none }

/-- Environment for the C3 witness; the password oracle accepts
everything, i.e. the supplied password is correct. -/
def c3Env : AuthService.LoginEnv :=
  { now := 1000, maxAttempts := 5, lockoutTime := 30,
    verifyPassword := fun _ _ => true, freshSessionId := "s1",
    freshAuditId := "a1", accessToken := "at", refreshToken := "rt" }

/-- Store for the C3 witness. -/
def c3Store : Store := { users := [c3User], sessions := [], auditLogs := [] }

/-- Witness for C3 at a concrete locked account with a correct password. -/
theorem login_lockout_checked_before_password_witness :
    (AuthService.login c3Env "199012345678" "CorrectPass1!"
        { ip := none, userAgent := none } c3Store).1
      = .error AuthService.LoginError.accountLocked :=
  (login_lockout_checked_before_password c3Env "199012345678" "CorrectPass1!"
    { ip := none, userAgent := none } c3Store c3User [] 2000
    (by decide) (by decide) (by decide)).1

/-! ## C1: reaching the failed-attempt threshold -/

/-- When the incremented failed-attempt count reaches the threshold,
`handleFailedLogin` sets `lockedUntil` and changes nothing else on the
user row; in particular the `status` column keeps its old value. -/
theorem handleFailedLogin_filter_at_threshold
    (env : AuthService.LoginEnv) (u : User) (nid : String) (meta : Metadata)
    (st : Store)
    (hid : st.users.filter (fun v => v.id = u.id) = [u])
    (hthr : u.failedAttempts + 1 ≥ env.maxAttempts) :
    (AuthService.handleFailedLogin env u.id nid meta st).users.filter
        (fun v => v.id = u.id)
      = [{ u with
            failedAttempts := u.failedAttempts + 1,
            lockedUntil := some (env.now + env.lockoutTime * 60 * 1000) }] := by
  have h1 : (st.users.map (fun v =>
        if v.id = u.id then { v with failedAttempts := v.failedAttempts + 1 }
        else v)).filter (fun v => v.id = u.id)
      = [({ u with failedAttempts := u.failedAttempts + 1 })] := by
    rw [filter_id_map_update
      (fun v => { v with failedAttempts := v.failedAttempts + 1 })
      (fun _ => rfl) u.id st.users, hid]
    rfl
  have h2 : (((st.users.map (fun v =>
        if v.id = u.id then { v with failedAttempts := v.failedAttempts + 1 }
        else v)).map (fun v =>
        if v.id = u.id then
          { v with lockedUntil := some (env.now + env.lockoutTime * 60 * 1000) }
        else v)).filter (fun v => v.id = u.id))
      = [{ u with
            failedAttempts := u.failedAttempts + 1,
            lockedUntil := some (env.now + env.lockoutTime * 60 * 1000) }] := by
    rw [filter_id_map_update
      (fun v => { v with lockedUntil := some (env.now + env.lockoutTime * 60 * 1000) })
      (fun _ => rfl) u.id _, h1]
    rfl
  simp only [AuthService.handleFailedLogin, AuthService.logFailedAttempt, h1]
  simp only [List.filter_cons, ge_iff_le, hthr, decide_eq_true_eq, if_pos]
  simp [hthr]
  rw [← List.map_map]
  exact h2

/-- Environment for the C1 concrete run: default threshold 5, default
lockout 30 minutes, a password oracle that rejects the supplied secret. -/
def c1Env : AuthService.LoginEnv :=
  { now := 1000, maxAttempts := 5, lockoutTime := 30,
    verifyPassword := fun _ _ => false, freshSessionId := "s1",
    freshAuditId := "a1", accessToken := "at", refreshToken := "rt" }

/-- User one failed attempt short of the threshold. -/
def c1User : User :=
  { id := "u1", nationalId := "199012345678", name := "Jane",
    email := "jane@example.com", password := "hashed", role := "citizen",
    status := "active", failedAttempts := 4, lockedUntil := none,
    lastLogin := none }

/-- Store for the C1 concrete run. -/
def c1Store : Store := { users := [c1User], sessions := [], auditLogs := [] }

/-- C1 counterexample: the failed login that brings the count to the
threshold (5 = default `MAX_LOGIN_ATTEMPTS`) sets `lockedUntil`
(1000 + 30·60000 = 1801000) but leaves `status = "active"`; the code
never sets `status` to `"locked"`, contradicting the claim's second
conjunct. -/
theorem login_fifth_failure_leaves_status_active :
    ((AuthService.login c1Env "199012345678" "WrongPass1!"
        { ip := none, userAgent := none } c1Store).2.users.map
      (fun v => (v.failedAttempts, v.lockedUntil, v.status)))
      = [(5, some 1801000, "active")]
    ∧ c1Env.maxAttempts = 5 := by decide

/-- C1 amended: when the failed-attempt count reaches the configured
threshold, `login` sets `lockedUntil = now + lockoutTime minutes` on the
user row and fails with `invalidCredentials`; every other column of the
row, in particular `status`, is unchanged. -/
theorem login_threshold_sets_lockout_not_status
    (env : AuthService.LoginEnv) (nid pw : String) (meta : Metadata)
    (st : Store) (u : User) (rest : List User)
    (hn : st.users.filter (fun v => v.nationalId = nid) = u :: rest)
    (hid : st.users.filter (fun v => v.id = u.id) = [u])
    (hlock : u.isLockedAt env.now = false)
    (hstatus : u.status = "active")
    (hpw : env.verifyPassword pw u.password = false)
    (hthr : u.failedAttempts + 1 ≥ env.maxAttempts) :
    (AuthService.login env nid pw meta st).1
        = .error AuthService.LoginError.invalidCredentials
    ∧ (AuthService.login env nid pw meta st).2.users.filter
        (fun v => v.id = u.id)
      = [{ u with
            failedAttempts := u.failedAttempts + 1,
            lockedUntil := some (env.now + env.lockoutTime * 60 * 1000) }] := by
  have hmain : AuthService.login env nid pw meta st
      = (.error AuthService.LoginError.invalidCredentials,
         AuthService.handleFailedLogin env u.id nid meta st) := by
    simp [AuthService.login, hn, hlock, hstatus, hpw]
  rw [hmain]
  exact ⟨rfl, handleFailedLogin_filter_at_threshold env u nid meta st hid hthr⟩

/-- Witness for the amended C1 theorem at the concrete run. -/
theorem login_threshold_sets_lockout_not_status_witness :
    (AuthService.login c1Env "199012345678" "WrongPass1!"
        { ip := none, userAgent := none } c1Store).1
      = .error AuthService.LoginError.invalidCredentials :=
  (login_threshold_sets_lockout_not_status c1Env "199012345678" "WrongPass1!"
    { ip := none, userAgent := none } c1Store c1User [] (by decide) (by decide)
    (by decide) (by decide) (by decide) (by decide)).1

/-! ## C5: a successful login resets the counters -/

/-- C5: for a user that is found, not locked, active, and whose password
verifies, `login` succeeds and the user row ends with
`failedAttempts = 0`, `lockedUntil = NULL` and `lastLogin = now`; all
other columns are unchanged. -/
theorem login_success_resets_counters
    (env : AuthService.LoginEnv) (nid pw : String) (meta : Metadata)
    (st : Store) (u : User) (rest : List User)
    (hn : st.users.filter (fun v => v.nationalId = nid) = u :: rest)
    (hid : st.users.filter (fun v => v.id = u.id) = [u])
    (hlock : u.isLockedAt env.now = false)
    (hstatus : u.status = "active")
    (hpw : env.verifyPassword pw u.password = true) :
    (AuthService.login env nid pw meta st).1
        = .ok { user := { id := u.id, nationalId := u.nationalId,
                          name := u.name, email := u.email, role := u.role,
                          lastLogin := u.lastLogin },
                tokens := { accessToken := env.accessToken,
                            refreshToken := env.refreshToken },
                sessionId := env.freshSessionId }
    ∧ (AuthService.login env nid pw meta st).2.users.filter
        (fun v => v.id = u.id)
      = [{ u with
            failedAttempts := 0, lockedUntil := none,
            lastLogin := some env.now }] := by
  have h1 : (st.users.map (fun v =>
        if v.id = u.id then { v with failedAttempts := 0, lockedUntil := none }
        else v)).filter (fun v => v.id = u.id)
      = [({ u with failedAttempts := 0, lockedUntil := none })] := by
    rw [filter_id_map_update
      (fun v => { v with failedAttempts := 0, lockedUntil := none })
      (fun _ => rfl) u.id st.users, hid]
    rfl
  have h2 : (((st.users.map (fun v =>
        if v.id = u.id then { v with failedAttempts := 0, lockedUntil := none }
        else v)).map (fun v =>
        if v.id = u.id then { v with lastLogin := some env.now }
        else v)).filter (fun v => v.id = u.id))
      = [{ u with
            failedAttempts := 0, lockedUntil := none,
            lastLogin := some env.now }] := by
    rw [filter_id_map_update
      (fun v => { v with lastLogin := some env.now })
      (fun _ => rfl) u.id _, h1]
    rfl
  constructor
  · simp [AuthService.login, hn, hlock, hstatus, hpw]
  · simp [AuthService.login, hn, hlock, hstatus, hpw,
      AuthService.resetFailedAttempts, AuthService.createSession,
      AuthService.logUserAction]
    rw [← List.map_map, ← hstatus]
    exact h2

/-- User for the C5 witness. -/
def c5User : User :=
  { id := "u1", nationalId := "199012345678", name := "Jane",
    email := "jane@example.com", password := "hashed", role := "citizen",
    status := "active", failedAttempts := 3, lockedUntil := some 500,
    lastLogin := some 7 }

/-- Environment for the C5 witness; the password oracle accepts the
stored hash pairing. -/
def c5Env : AuthService.LoginEnv :=
  { now := 1000, maxAttempts := 5, lockoutTime := 30,
    verifyPassword := fun _ _ => true, freshSessionId := "s1",
    freshAuditId := "a1", accessToken := "at", refreshToken := "rt" }

/-- Store for the C5 witness. -/
def c5Store : Store := { users := [c5User], sessions := [], auditLogs := [] }

/-- Witness for C5 at a concrete successful login (note the lapsed
`lockedUntil = 500 < now = 1000` is cleared and `lastLogin` becomes
1000). -/
theorem login_success_resets_counters_witness :
    (AuthService.login c5Env "199012345678" "RightPass1!"
        { ip := none, userAgent := none } c5Store).2.users.filter
      (fun v => v.id = c5User.id)
      = [{ c5User with
            failedAttempts := 0, lockedUntil := none,
            lastLogin := some 1000 }] :=
  (login_success_resets_counters c5Env "199012345678" "RightPass1!"
    { ip := none, userAgent := none } c5Store c5User [] (by decide) (by decide)
    (by decide) (by decide) (by decide)).2

/-! ## C6: duplicate registration leaves the store unchanged -/

/-- C6: when a user with the same national id or email already exists,
`register` fails with `userAlreadyExists` and returns the store entirely
unchanged: no user, session or audit row is inserted. -/
theorem register_duplicate_rejected
    (env : AuthService.RegisterEnv) (nid nm em pw : String) (st : Store)
    (hdup : st.users.filter (fun v => v.nationalId = nid ∨ v.email = em) ≠ []) :
    AuthService.register env nid nm em pw st
      = (.error AuthService.RegisterError.userAlreadyExists, st) := by
  obtain ⟨a, l, hf⟩ : ∃ a l,
      st.users.filter (fun v => v.nationalId = nid ∨ v.email = em) = a :: l := by
    cases hf : st.users.filter (fun v => v.nationalId = nid ∨ v.email = em) with
    | nil => exact absurd hf hdup
    | cons a l => exact ⟨a, l, rfl⟩
  have hf2 : st.users.filter (fun v =>
      (decide (v.nationalId = nid) || decide (v.email = em))) = a :: l := by
    simpa using hf
  simp [AuthService.register, hf2]

/-- Existing user for the C6 witness. -/
def c6User : User :=
  { id := "u1", nationalId := "199012345678", name := "Jane",
    email := "jane@example.com", password := "hashed", role := "citizen",
    status := "active", failedAttempts := 0, lockedUntil := none,
    lastLogin := none }

/-- Environment for the C6 witness. -/
def c6Env : AuthService.RegisterEnv :=
  { now := 1000, minLength := 8, hashPassword := fun s => s,
    freshUserId := "u2", freshSessionId := "s2", freshAuditId := "a2",
    accessToken := "at", refreshToken := "rt" }

/-- Store for the C6 witness. -/
def c6Store : Store := { users := [c6User], sessions := [], auditLogs := [] }

/-- Witness for C6: registering a different person under an email that is
already taken is rejected and the store is returned unchanged. -/
theorem register_duplicate_rejected_witness :
    AuthService.register c6Env "200001010001" "Bob" "jane@example.com"
        "StrongPass1!" c6Store
      = (.error AuthService.RegisterError.userAlreadyExists, c6Store) :=
  register_duplicate_rejected c6Env "200001010001" "Bob" "jane@example.com"
    "StrongPass1!" c6Store (by decide)

/-! ## C7: logout and repeated logout -/

/-- Applying `logout` twice to the same session yields the same session
rows as applying only the second call: the unconditional UPDATE simply
overwrites `isActive` and `loggedOutAt` again. -/
theorem logout_logout_sessions (now1 now2 : Int) (a1 a2 uid sid : String)
    (st : Store) :
    (AuthService.logout now2 a2 uid sid
        (AuthService.logout now1 a1 uid sid st).2).2.sessions
      = (AuthService.logout now2 a2 uid sid st).2.sessions := by
  have key : ∀ l : List Session,
      ((l.map (fun s => if s.id = sid ∧ s.userId = uid then
          { s with isActive := false, loggedOutAt := some now1 } else s)).map
        (fun s => if s.id = sid ∧ s.userId = uid then
          { s with isActive := false, loggedOutAt := some now2 } else s))
      = l.map (fun s => if s.id = sid ∧ s.userId = uid then
          { s with isActive := false, loggedOutAt := some now2 } else s) := by
    intro l
    induction l with
    | nil => rfl
    | cons s l ih =>
      by_cases h : s.id = sid ∧ s.userId = uid
      · simp [h, ih]
      · simp [h, ih]
  simp only [AuthService.logout, AuthService.logUserAction]
  exact key st.sessions

/-- C7 amended: both the first and a repeated `logout` report success and
the named session ends inactive, but the repeated call overwrites
`loggedOutAt` with its own (later) timestamp: the resulting session rows
equal those of a single logout performed at the second timestamp, and
they coincide with the first logout's rows only when the timestamps are
equal. -/
theorem logout_idempotent_up_to_timestamp
    (now1 now2 : Int) (a1 a2 uid sid : String) (st : Store) :
    (AuthService.logout now1 a1 uid sid st).1 = true
    ∧ (AuthService.logout now2 a2 uid sid
        (AuthService.logout now1 a1 uid sid st).2).1 = true
    ∧ (∀ s ∈ st.sessions, s.id = sid → s.userId = uid →
        ({ s with isActive := false, loggedOutAt := some now1 })
          ∈ (AuthService.logout now1 a1 uid sid st).2.sessions)
    ∧ ((AuthService.logout now2 a2 uid sid
          (AuthService.logout now1 a1 uid sid st).2).2.sessions
        = (AuthService.logout now2 a2 uid sid st).2.sessions)
    ∧ (now2 = now1 →
        (AuthService.logout now2 a2 uid sid
            (AuthService.logout now1 a1 uid sid st).2).2.sessions
          = (AuthService.logout now1 a1 uid sid st).2.sessions) := by
  refine ⟨rfl, rfl, ?_, logout_logout_sessions now1 now2 a1 a2 uid sid st, ?_⟩
  · intro s hs h1 h2
    have hmem := List.mem_map_of_mem
      (fun s => if s.id = sid ∧ s.userId = uid then
        { s with isActive := false, loggedOutAt := some now1 } else s) hs
    simpa [AuthService.logout, AuthService.logUserAction, h1, h2] using hmem
  · intro h
    rw [h, logout_logout_sessions]
    rfl

/-- Session for the C7 concrete run. -/
def c7Session : Session :=
  { id := "s1", userId := "u1", token := "t", createdAt := 0,
    expiresAt := 86400000, lastActivity := 0, isActive := true,
    ipAddress := none, userAgent := none, loggedOutAt := none }

/-- Store for the C7 concrete run. -/
def c7Store : Store :=
  { users := [], sessions := [c7Session], auditLogs := [] }

/-- C7 counterexample: logging out at time 0 leaves `loggedOutAt = 0`;
logging the same (now inactive) session out again at time 1000 leaves
`loggedOutAt = 1000`, so the second call does not leave the same state
as the first. -/
theorem logout_repeat_overwrites_loggedOutAt :
    ((AuthService.logout 0 "a1" "u1" "s1" c7Store).2).sessions.map
        (fun s => (s.isActive, s.loggedOutAt)) = [(false, some 0)]
    ∧ ((AuthService.logout 1000 "a2" "u1" "s1"
        (AuthService.logout 0 "a1" "u1" "s1" c7Store).2).2).sessions.map
        (fun s => (s.isActive, s.loggedOutAt)) = [(false, some 1000)] := by
  decide

/-- Witness for the amended C7 theorem at the concrete run. -/
theorem logout_idempotent_up_to_timestamp_witness :
    ((AuthService.logout 1000 "a2" "u1" "s1"
        (AuthService.logout 0 "a1" "u1" "s1" c7Store).2).2).sessions
      = ((AuthService.logout 1000 "a2" "u1" "s1" c7Store).2).sessions :=
  (logout_idempotent_up_to_timestamp 0 1000 "a1" "a2" "u1" "s1" c7Store).2.2.2.1

/-! ## C9: session extension is capped at one week -/

/-- C9: with a session cookie present, a requested extension of more than
168 hours is rejected with the store unchanged; an accepted extension
sets the session's expiry to `now + hours·3600000`, which is never more
than one week (168 hours) past `now`. -/
theorem extendSession_capped_at_one_week
    (now : Int) (sid : String) (h : Int) (st : Store) (hsid : sid ≠ "") :
    (h > 168 →
      SessionController.extendSession now (some sid) (some h) st
        = (.badRequest "Cannot extend session for more than 1 week", st))
    ∧ ((if h = 0 then (24:Int) else h) ≤ 168 →
        (SessionController.extendSession now (some sid) (some h) st).1
            = .ok (if h = 0 then (24:Int) else h)
                (now + (if h = 0 then (24:Int) else h) * 60 * 60 * 1000)
        ∧ (∀ s ∈ st.sessions, s.id = sid → s.isActive = true →
            ({ s with expiresAt :=
                now + (if h = 0 then (24:Int) else h) * 60 * 60 * 1000 })
              ∈ (SessionController.extendSession now (some sid)
                  (some h) st).2.sessions)
        ∧ now + (if h = 0 then (24:Int) else h) * 60 * 60 * 1000
            ≤ now + 168 * 60 * 60 * 1000) := by
  have htr : jsTruthy (some sid) = true := by simp [jsTruthy, hsid]
  constructor
  · intro hgt
    have hne : ¬ h = 0 := by omega
    simp [SessionController.extendSession, htr, hne, hgt]
  · intro hle
    have hnot : ¬ ((if h = 0 then (24:Int) else h) > 168) := by omega
    refine ⟨?_, ?_, ?_⟩
    · simp [SessionController.extendSession, htr, hnot,
        SessionService.extendSession]
    · intro s hs h1 h2
      have hmem := List.mem_map_of_mem
        (fun s => if s.id = sid ∧ s.isActive = true then
          { s with expiresAt :=
              now + (if h = 0 then (24:Int) else h) * 60 * 60 * 1000 }
          else s) hs
      simp [SessionController.extendSession, htr, hnot,
        SessionService.extendSession, h1, h2] at hmem ⊢
      by_cases h0 : h = 0 <;> simpa [h0] using hmem
    · have : (if h = 0 then (24:Int) else h) * (60 * 60 * 1000)
          ≤ 168 * (60 * 60 * 1000) := by
        apply Int.mul_le_mul_of_nonneg_right hle
        norm_num
      omega

/-- Session for the C9 witness. -/
def c9Session : Session :=
  { id := "s1", userId := "u1", token := "t", createdAt := 0,
    expiresAt := 86400000, lastActivity := 0, isActive := true,
    ipAddress := none, userAgent := none, loggedOutAt := none }

/-- Store for the C9 witness. -/
def c9Store : Store :=
  { users := [], sessions := [c9Session], auditLogs := [] }

/-- Witness for C9: a requested 200-hour extension is rejected and leaves
the store unchanged. -/
theorem extendSession_capped_at_one_week_witness :
    SessionController.extendSession 0 (some "s1") (some 200) c9Store
      = (.badRequest "Cannot extend session for more than 1 week", c9Store) :=
  (extendSession_capped_at_one_week 0 "s1" 200 c9Store (by decide)).1
    (by norm_num)

/-! ## C8: terminating all sessions except one -/

/-- With a nonempty exclusion id, the termination WHERE clause selects
exactly the user's active sessions other than the excluded one. -/
theorem matchesTermination_some (uid e : String) (he : e ≠ "")
    (s : Session) :
    SessionService.matchesTermination uid (some e) s
      = (decide (s.userId = uid) && s.isActive && decide (¬ s.id = e)) := by
  simp [SessionService.matchesTermination, jsTruthy, he]

/-- Flipping the rows selected by a condition that only selects active
rows removes exactly as many active rows as were selected. -/
theorem flip_active_count (cond : Session → Bool) (now : Int)
    (himp : ∀ s, cond s = true → s.isActive = true) (l : List Session) :
    (l.filter cond).length
        + ((l.map (fun s => if cond s then
              { s with isActive := false, loggedOutAt := some now }
            else s)).filter (fun s => s.isActive)).length
      = (l.filter (fun s => s.isActive)).length := by
  induction l with
  | nil => rfl
  | cons s l ih =>
    by_cases hcs : cond s = true
    · have ha := himp s hcs
      simp [hcs, ha]
      omega
    · have hcs2 : cond s = false := by
        revert hcs; cases cond s <;> simp
      cases hact : s.isActive with
      | true =>
        simp [hcs2, hact]
        omega
      | false =>
        simp [hcs2, hact, ih]

/-- C8: with an exclusion id, `terminateAllSessions` flips exactly the
user's active sessions other than the excluded one: the flip count equals
the drop in active rows, every such session reappears flipped, the
excluded session and every inactive or foreign row pass through
unchanged, and afterwards the only possibly-active session of the user is
the excluded one. -/
theorem terminateAllSessions_exact
    (now : Int) (uid e : String) (st : Store) (he : e ≠ "") :
    ((SessionService.terminateAllSessions now uid (some e) st).1
        + ((SessionService.terminateAllSessions now uid (some e) st).2.sessions.filter
            (fun s => s.isActive)).length
      = (st.sessions.filter (fun s => s.isActive)).length)
    ∧ (∀ s ∈ st.sessions, s.userId = uid → s.isActive = true → ¬ s.id = e →
        ({ s with isActive := false, loggedOutAt := some now })
          ∈ (SessionService.terminateAllSessions now uid (some e) st).2.sessions)
    ∧ (∀ s ∈ st.sessions, (s.id = e ∨ ¬ s.userId = uid ∨ s.isActive = false) →
        s ∈ (SessionService.terminateAllSessions now uid (some e) st).2.sessions)
    ∧ (∀ s2 ∈ (SessionService.terminateAllSessions now uid (some e) st).2.sessions,
        s2.isActive = true → s2.userId = uid → s2.id = e)
    ∧ (∀ s2 ∈ (SessionService.terminateAllSessions now uid (some e) st).2.sessions,
        ¬ s2.userId = uid → s2 ∈ st.sessions) := by
  have himp : ∀ s, SessionService.matchesTermination uid (some e) s = true →
      s.isActive = true := by
    intro s hc
    rw [matchesTermination_some uid e he] at hc
    simp at hc
    tauto
  refine ⟨?_, ?_, ?_, ?_, ?_⟩
  · have hfc := flip_active_count
      (SessionService.matchesTermination uid (some e)) now himp st.sessions
    simpa [SessionService.terminateAllSessions] using hfc
  · intro s hs h1 h2 h3
    have hc : SessionService.matchesTermination uid (some e) s = true := by
      rw [matchesTermination_some uid e he]
      simp [h1, h2, h3]
    have hmem := List.mem_map_of_mem
      (fun s => if SessionService.matchesTermination uid (some e) s then
        { s with isActive := false, loggedOutAt := some now } else s) hs
    simp only [hc, if_true] at hmem
    simpa [SessionService.terminateAllSessions] using hmem
  · intro s hs hcase
    have hc : SessionService.matchesTermination uid (some e) s = false := by
      rw [matchesTermination_some uid e he]
      rcases hcase with h | h | h
      · simp [h]
      · simp [h]
      · simp [h]
    have hmem := List.mem_map_of_mem
      (fun s => if SessionService.matchesTermination uid (some e) s then
        { s with isActive := false, loggedOutAt := some now } else s) hs
    simp only [hc] at hmem
    simpa [SessionService.terminateAllSessions] using hmem
  · intro s2 hmem h1 h2
    simp only [SessionService.terminateAllSessions] at hmem
    obtain ⟨s, hs, hfs⟩ := List.mem_map.mp hmem
    by_cases hc : SessionService.matchesTermination uid (some e) s = true
    · rw [if_pos hc] at hfs
      rw [← hfs] at h1
      simp at h1
    · rw [if_neg hc] at hfs
      rw [matchesTermination_some uid e he] at hc
      rw [← hfs] at h1 h2 ⊢
      simp [h1, h2] at hc
      exact hc
  · intro s2 hmem hneq
    simp only [SessionService.terminateAllSessions] at hmem
    obtain ⟨s, hs, hfs⟩ := List.mem_map.mp hmem
    by_cases hc : SessionService.matchesTermination uid (some e) s = true
    · have huid : s.userId = uid := by
        rw [matchesTermination_some uid e he] at hc
        simp at hc
        tauto
      rw [if_pos hc] at hfs
      rw [← hfs] at hneq
      simp [huid] at hneq
    · rw [if_neg hc] at hfs
      rw [← hfs]
      exact hs

/-! ## C2: bearer-token authentication -/

/-- Evaluation of the middleware when the JWT signature is invalid. -/
theorem authenticateToken_eval_invalid
    (env : AuthEnv) (header : Option String) (st : Store) (tok : String)
    (he : extractToken header = some tok) (ht : ¬ tok = "")
    (hjwt : env.verifyJwt tok = .invalid) :
    authenticateToken env header st = (.reject 403 "Invalid token", st) := by
  simp only [authenticateToken, he]
  rw [if_neg ht, hjwt]

/-- Evaluation of the middleware when the JWT itself is expired. -/
theorem authenticateToken_eval_token_expired
    (env : AuthEnv) (header : Option String) (st : Store) (tok : String)
    (he : extractToken header = some tok) (ht : ¬ tok = "")
    (hjwt : env.verifyJwt tok = .expired) :
    authenticateToken env header st = (.reject 401 "Token expired", st) := by
  simp only [authenticateToken, he]
  rw [if_neg ht, hjwt]

/-- Evaluation of the middleware when the token's subject no longer
exists. -/
theorem authenticateToken_eval_no_user
    (env : AuthEnv) (header : Option String) (st : Store) (tok uid : String)
    (he : extractToken header = some tok) (ht : ¬ tok = "")
    (hjwt : env.verifyJwt tok = .ok uid)
    (hu : st.users.filter (fun v => v.id = uid) = []) :
    authenticateToken env header st = (.reject 401 "User not found", st) := by
  simp only [authenticateToken, he]
  rw [if_neg ht, hjwt]
  simp only [hu]

/-- Evaluation of the middleware when the account is not active. -/
theorem authenticateToken_eval_inactive
    (env : AuthEnv) (header : Option String) (st : Store) (tok uid : String)
    (u : User) (urest : List User)
    (he : extractToken header = some tok) (ht : ¬ tok = "")
    (hjwt : env.verifyJwt tok = .ok uid)
    (hu : st.users.filter (fun v => v.id = uid) = u :: urest)
    (hstat : ¬ u.status = "active") :
    authenticateToken env header st
      = (.reject 401 "Account is not active", st) := by
  simp only [authenticateToken, he]
  rw [if_neg ht, hjwt]
  simp only [hu]
  rw [if_pos hstat]

/-- Evaluation of the middleware when the account is locked. -/
theorem authenticateToken_eval_locked
    (env : AuthEnv) (header : Option String) (st : Store) (tok uid : String)
    (u : User) (urest : List User)
    (he : extractToken header = some tok) (ht : ¬ tok = "")
    (hjwt : env.verifyJwt tok = .ok uid)
    (hu : st.users.filter (fun v => v.id = uid) = u :: urest)
    (hstat : u.status = "active")
    (hlock : u.isLockedAt env.now = true) :
    authenticateToken env header st = (.reject 423 "Account is locked", st) := by
  simp only [authenticateToken, he]
  rw [if_neg ht, hjwt]
  simp only [hu]
  rw [if_neg (fun hcon => hcon hstat), if_pos (by simp [hlock])]

/-- Evaluation of the middleware when no active session matches the
token. -/
theorem authenticateToken_eval_no_session
    (env : AuthEnv) (header : Option String) (st : Store) (tok uid : String)
    (u : User) (urest : List User)
    (he : extractToken header = some tok) (ht : ¬ tok = "")
    (hjwt : env.verifyJwt tok = .ok uid)
    (hu : st.users.filter (fun v => v.id = uid) = u :: urest)
    (hstat : u.status = "active")
    (hlock : u.isLockedAt env.now = false)
    (hs : st.sessions.filter (fun x =>
        x.userId = u.id ∧ x.token = tok ∧ x.isActive = true) = []) :
    authenticateToken env header st = (.reject 401 "Session not found", st) := by
  simp only [authenticateToken, he]
  rw [if_neg ht, hjwt]
  simp only [hu]
  rw [if_neg (fun hcon => hcon hstat), if_neg (by simp [hlock])]
  simp only [hs]

/-- Evaluation of the middleware when the matching active session is past
its expiry: the session is flipped inactive and the request is rejected. -/
theorem authenticateToken_eval_session_expired
    (env : AuthEnv) (header : Option String) (st : Store) (tok uid : String)
    (u : User) (urest : List User) (s : Session) (srest : List Session)
    (he : extractToken header = some tok) (ht : ¬ tok = "")
    (hjwt : env.verifyJwt tok = .ok uid)
    (hu : st.users.filter (fun v => v.id = uid) = u :: urest)
    (hstat : u.status = "active")
    (hlock : u.isLockedAt env.now = false)
    (hs : st.sessions.filter (fun x =>
        x.userId = u.id ∧ x.token = tok ∧ x.isActive = true) = s :: srest)
    (hexp : env.now > s.expiresAt) :
    authenticateToken env header st
      = (.reject 401 "Session expired",
         { st with sessions := st.sessions.map (fun x =>
             if x.id = s.id then { x with isActive := false } else x) }) := by
  simp only [authenticateToken, he]
  rw [if_neg ht, hjwt]
  simp only [hu]
  rw [if_neg (fun hcon => hcon hstat), if_neg (by simp [hlock])]
  simp only [hs]
  rw [if_pos hexp]

/-- Evaluation of the middleware when the session is live: the
last-activity timestamp is touched and the principal is exposed. -/
theorem authenticateToken_eval_proceed
    (env : AuthEnv) (header : Option String) (st : Store) (tok uid : String)
    (u : User) (urest : List User) (s : Session) (srest : List Session)
    (he : extractToken header = some tok) (ht : ¬ tok = "")
    (hjwt : env.verifyJwt tok = .ok uid)
    (hu : st.users.filter (fun v => v.id = uid) = u :: urest)
    (hstat : u.status = "active")
    (hlock : u.isLockedAt env.now = false)
    (hs : st.sessions.filter (fun x =>
        x.userId = u.id ∧ x.token = tok ∧ x.isActive = true) = s :: srest)
    (hexp : ¬ env.now > s.expiresAt) :
    authenticateToken env header st
      = (.proceed { id := u.id, nationalId := u.nationalId, name := u.name,
                    email := u.email, role := u.role, sessionId := s.id },
         { st with sessions := st.sessions.map (fun x =>
             if x.id = s.id then { x with lastActivity := env.now } else x) }) := by
  simp only [authenticateToken, he]
  rw [if_neg ht, hjwt]
  simp only [hu]
  rw [if_neg (fun hcon => hcon hstat), if_neg (by simp [hlock])]
  simp only [hs]
  rw [if_neg hexp]

/-- C2 amended: for a bearer-token request, authentication succeeds if
and only if the token verifies, the user exists with status active and is
not currently locked, and a matching session row has `isActive = true`
and `now ≤ expiresAt` (the code only treats `now > expiresAt` as expired,
so the boundary instant still authenticates); an expired active session
is flipped inactive as a side effect of the session-expired rejection,
and on success the session's `lastActivity` becomes `now` and the
principal `{userId, role, sessionId, ...}` is exposed. -/
theorem authenticateToken_session_validity
    (env : AuthEnv) (header : Option String) (st : Store) (tok : String)
    (he : extractToken header = some tok) (ht : ¬ tok = "") :
    ((∃ p, (authenticateToken env header st).1 = .proceed p)
      ↔ (∃ uid u urest s srest,
          env.verifyJwt tok = .ok uid
          ∧ st.users.filter (fun v => v.id = uid) = u :: urest
          ∧ u.status = "active"
          ∧ u.isLockedAt env.now = false
          ∧ st.sessions.filter (fun x =>
              x.userId = u.id ∧ x.token = tok ∧ x.isActive = true) = s :: srest
          ∧ env.now ≤ s.expiresAt))
    ∧ (∀ uid u urest s srest,
        env.verifyJwt tok = .ok uid →
        st.users.filter (fun v => v.id = uid) = u :: urest →
        u.status = "active" →
        u.isLockedAt env.now = false →
        st.sessions.filter (fun x =>
            x.userId = u.id ∧ x.token = tok ∧ x.isActive = true) = s :: srest →
        ((env.now > s.expiresAt →
          (authenticateToken env header st).1 = .reject 401 "Session expired"
          ∧ ∀ x ∈ st.sessions, x.id = s.id →
              ({ x with isActive := false })
                ∈ (authenticateToken env header st).2.sessions)
        ∧ (env.now ≤ s.expiresAt →
          (authenticateToken env header st).1
              = .proceed { id := u.id, nationalId := u.nationalId,
                           name := u.name, email := u.email, role := u.role,
                           sessionId := s.id }
          ∧ ∀ x ∈ st.sessions, x.id = s.id →
              ({ x with lastActivity := env.now })
                ∈ (authenticateToken env header st).2.sessions))) := by
  constructor
  · constructor
    · rintro ⟨p, hp⟩
      cases hjwt : env.verifyJwt tok with
      | invalid =>
        rw [authenticateToken_eval_invalid env header st tok he ht hjwt] at hp
        simp at hp
      | expired =>
        rw [authenticateToken_eval_token_expired env header st tok he ht hjwt]
          at hp
        simp at hp
      | ok uid =>
        cases hu : st.users.filter (fun v => v.id = uid) with
        | nil =>
          rw [authenticateToken_eval_no_user env header st tok uid he ht hjwt
            hu] at hp
          simp at hp
        | cons u urest =>
          by_cases hstat : u.status = "active"
          · by_cases hlockp : u.isLockedAt env.now = true
            · rw [authenticateToken_eval_locked env header st tok uid u urest
                he ht hjwt hu hstat hlockp] at hp
              simp at hp
            · have hlock : u.isLockedAt env.now = false := by
                revert hlockp; cases u.isLockedAt env.now <;> simp
              cases hs : st.sessions.filter (fun x =>
                  x.userId = u.id ∧ x.token = tok ∧ x.isActive = true) with
              | nil =>
                rw [authenticateToken_eval_no_session env header st tok uid u
                  urest he ht hjwt hu hstat hlock hs] at hp
                simp at hp
              | cons s srest =>
                by_cases hexp : env.now > s.expiresAt
                · rw [authenticateToken_eval_session_expired env header st tok
                    uid u urest s srest he ht hjwt hu hstat hlock hs hexp] at hp
                  simp at hp
                · exact ⟨uid, u, urest, s, srest, rfl, hu, hstat, hlock, hs,
                    by omega⟩
          · rw [authenticateToken_eval_inactive env header st tok uid u urest
              he ht hjwt hu hstat] at hp
            simp at hp
    · rintro ⟨uid, u, urest, s, srest, h1, h2, h3, h4, h5, h6⟩
      rw [authenticateToken_eval_proceed env header st tok uid u urest s srest
        he ht h1 h2 h3 h4 h5 (by omega)]
      exact ⟨_, rfl⟩
  · intro uid u urest s srest h1 h2 h3 h4 h5
    constructor
    · intro hgt
      rw [authenticateToken_eval_session_expired env header st tok uid u urest
        s srest he ht h1 h2 h3 h4 h5 hgt]
      refine ⟨rfl, ?_⟩
      intro x hx hxid
      have hmem := List.mem_map_of_mem
        (fun x => if x.id = s.id then { x with isActive := false } else x) hx
      simpa [hxid] using hmem
    · intro hle
      rw [authenticateToken_eval_proceed env header st tok uid u urest s srest
        he ht h1 h2 h3 h4 h5 (by omega)]
      refine ⟨rfl, ?_⟩
      intro x hx hxid
      have hmem := List.mem_map_of_mem
        (fun x => if x.id = s.id then { x with lastActivity := env.now }
          else x) hx
      simpa [hxid] using hmem

/-- Active user for the C2 concrete runs. -/
def c2User : User :=
  { id := "u1", nationalId := "199012345678", name := "Jane",
    email := "jane@example.com", password := "hashed", role := "citizen",
    status := "active", failedAttempts := 0, lockedUntil := none,
    lastLogin := none }

/-- Active session expiring at instant 100 for the C2 concrete runs. -/
def c2Session : Session :=
  { id := "s1", userId := "u1", token := "tok", createdAt := 0,
    expiresAt := 100, lastActivity := 0, isActive := true,
    ipAddress := none, userAgent := none, loggedOutAt := none }

/-- Store for the C2 concrete runs. -/
def c2Store : Store :=
  { users := [c2User], sessions := [c2Session], auditLogs := [] }

/-- Middleware environment whose clock reads exactly the session's
expiry instant; the JWT oracle accepts the session's token. -/
def c2EnvBoundary : AuthEnv :=
  { now := 100,
    verifyJwt := fun t => if t = "tok" then .ok "u1" else .invalid }

/-- C2 counterexample: at `now = expiresAt` the middleware still
authenticates the request (the code only rejects when
`now > expiresAt`), so `now < expiresAt` is not necessary for success as
the claim states. -/
theorem authenticateToken_succeeds_at_expiry_boundary :
    (authenticateToken c2EnvBoundary (some "Bearer tok") c2Store).1
      = .proceed { id := "u1", nationalId := "199012345678", name := "Jane",
                   email := "jane@example.com", role := "citizen",
                   sessionId := "s1" }
    ∧ c2EnvBoundary.now = c2Session.expiresAt := by
  constructor
  · rfl
  · rfl

/-- Middleware environment strictly before the session's expiry. -/
def c2EnvLive : AuthEnv :=
  { now := 50,
    verifyJwt := fun t => if t = "tok" then .ok "u1" else .invalid }

/-- Witness for the amended C2 theorem: a live session authenticates and
the principal is exposed. -/
theorem authenticateToken_session_validity_witness :
    (authenticateToken c2EnvLive (some "Bearer tok") c2Store).1
      = .proceed { id := "u1", nationalId := "199012345678", name := "Jane",
                   email := "jane@example.com", role := "citizen",
                   sessionId := "s1" } := by
  have h := (authenticateToken_session_validity c2EnvLive (some "Bearer tok")
    c2Store "tok" (by decide) (by decide)).2 "u1" c2User [] c2Session []
    (by decide) (by decide) (by decide) (by decide) (by decide)
  exact (h.2 (by decide)).1

/-! ## C4: the refresh-token endpoint can never succeed -/

/-- Observer for the controller response: did the refresh succeed? -/
def AuthController.RefreshResponse.isOk : AuthController.RefreshResponse → Bool
  | .ok _ => true
  | _ => false

/-- C4: the `AuthService` class defines no `refreshToken` method, so the
controller's `authService.refreshToken(refreshToken)` call always throws
and the catch block answers 401 `Invalid refresh token`: no refresh
request, however valid its token, ever yields a new access token. -/
theorem refreshToken_never_succeeds :
    AuthService.methods.contains "refreshToken" = false
    ∧ AuthService.refreshTokenMethod = none
    ∧ (∀ tok : String, (AuthController.refreshToken (some tok)).isOk = false)
    ∧ AuthController.refreshToken (some "freshly.minted.valid.token")
        = .unauthorized "Invalid refresh token" := by
  refine ⟨by decide, rfl, ?_, by decide⟩
  intro tok
  by_cases htok : tok = ""
  · simp [AuthController.refreshToken, jsTruthy, htok,
      AuthController.RefreshResponse.isOk, AuthService.refreshTokenMethod]
  · simp [AuthController.refreshToken, jsTruthy, htok,
      AuthController.RefreshResponse.isOk, AuthService.refreshTokenMethod]

/-! ## C10: failed-login audit rows carry a null user id -/

/-- The audit row written by `logFailedAttempt` for a given reason. -/
def failedLoginEntry (auditId nid reason : String) (meta : Metadata)
    (now : Int) : AuditEntry :=
  { id := auditId, userId := none, action := "LOGIN_FAILED",
    details := .failedLogin nid reason, ipAddress := meta.ip,
    userAgent := meta.userAgent, timestamp := now }

/-- Whatever `handleFailedLogin` does to the user row, its only audit
write is the `logFailedAttempt` row with `userId = NULL`. -/
theorem handleFailedLogin_auditLogs
    (env : AuthService.LoginEnv) (userId nid : String) (meta : Metadata)
    (st : Store) :
    (AuthService.handleFailedLogin env userId nid meta st).auditLogs
      = st.auditLogs
        ++ [failedLoginEntry env.freshAuditId nid "Invalid password" meta env.now] := by
  simp only [AuthService.handleFailedLogin, AuthService.logFailedAttempt,
    failedLoginEntry]
  cases hm : (st.users.map (fun u =>
      if u.id = userId then { u with failedAttempts := u.failedAttempts + 1 }
      else u)).filter (fun u => u.id = userId) with
  | nil => simp [hm]
  | cons v vs =>
    by_cases hv : v.failedAttempts ≥ env.maxAttempts
    · simp [hm, hv]
    · simp [hm, hv]

/-- C10: every audit row appended by a failed `login` — unknown identity,
locked account, inactive account, or wrong password for a resolved user —
has `action = 'LOGIN_FAILED'` and `userId = NULL`. -/
theorem failed_login_audits_null_userId
    (env : AuthService.LoginEnv) (nid pw : String) (meta : Metadata)
    (st : Store) (e : AuthService.LoginError)
    (hfail : (AuthService.login env nid pw meta st).1 = .error e) :
    ∃ newEntries,
      (AuthService.login env nid pw meta st).2.auditLogs
          = st.auditLogs ++ newEntries
      ∧ ∀ a ∈ newEntries, a.action = "LOGIN_FAILED" ∧ a.userId = none := by
  cases hf : st.users.filter (fun v => v.nationalId = nid) with
  | nil =>
    refine ⟨[failedLoginEntry env.freshAuditId nid "User not found" meta env.now],
      ?_, ?_⟩
    · simp [AuthService.login, hf, AuthService.logFailedAttempt,
        failedLoginEntry]
    · intro a ha
      simp at ha
      subst ha
      exact ⟨rfl, rfl⟩
  | cons u rest =>
    by_cases hlockp : u.isLockedAt env.now = true
    · refine ⟨[failedLoginEntry env.freshAuditId nid "Account locked" meta env.now],
        ?_, ?_⟩
      · simp [AuthService.login, hf, hlockp, AuthService.logFailedAttempt,
          failedLoginEntry]
      · intro a ha
        simp at ha
        subst ha
        exact ⟨rfl, rfl⟩
    · have hlock : u.isLockedAt env.now = false := by
        revert hlockp; cases u.isLockedAt env.now <;> simp
      by_cases hstat : u.status = "active"
      · by_cases hpwp : env.verifyPassword pw u.password = true
        · exfalso
          simp [AuthService.login, hf, hlock, hstat, hpwp] at hfail
        · have hpw : env.verifyPassword pw u.password = false := by
            revert hpwp; cases env.verifyPassword pw u.password <;> simp
          refine ⟨[failedLoginEntry env.freshAuditId nid "Invalid password" meta env.now],
            ?_, ?_⟩
          · have hh := handleFailedLogin_auditLogs env u.id nid meta st
            simp [AuthService.login, hf, hlock, hstat, hpw, hh,
              failedLoginEntry]
          · intro a ha
            simp at ha
            subst ha
            exact ⟨rfl, rfl⟩
      · refine ⟨[failedLoginEntry env.freshAuditId nid "Account inactive" meta env.now],
          ?_, ?_⟩
        · simp [AuthService.login, hf, hlock, hstat,
            AuthService.logFailedAttempt, failedLoginEntry]
        · intro a ha
          simp at ha
          subst ha
          exact ⟨rfl, rfl⟩

/-- Environment for the C10 witness. -/
def c10Env : AuthService.LoginEnv :=
  { now := 1000, maxAttempts := 5, lockoutTime := 30,
    verifyPassword := fun _ _ => false, freshSessionId := "s1",
    freshAuditId := "a1", accessToken := "at", refreshToken := "rt" }

/-- Store for the C10 witness: no user at all, so the login fails with an
unknown identity. -/
def c10Store : Store := { users := [], sessions := [], auditLogs := [] }

/-- Witness for C10: the failed login's only audit row is
`(LOGIN_FAILED, NULL)`. -/
theorem failed_login_audits_null_userId_witness :
    ((AuthService.login c10Env "000000000000" "x"
        { ip := none, userAgent := none } c10Store).2.auditLogs.map
      (fun a => (a.action, a.userId)))
      = [("LOGIN_FAILED", (none : Option String))] := by
  obtain ⟨new, hnew, hall⟩ := failed_login_audits_null_userId c10Env
    "000000000000" "x" { ip := none, userAgent := none } c10Store
    .invalidCredentials rfl
  decide

/-- Store for the C8 witness: two active sessions of user `u1` (one of
them the caller's own, to be excluded) and an active session of another
user. -/
def c8Store : Store :=
  { users := [],
    sessions :=
      [{ id := "s1", userId := "u1", token := "t1", createdAt := 0,
         expiresAt := 100, lastActivity := 0, isActive := true,
         ipAddress := none, userAgent := none, loggedOutAt := none },
       { id := "s2", userId := "u1", token := "t2", createdAt := 0,
         expiresAt := 100, lastActivity := 0, isActive := true,
         ipAddress := none, userAgent := none, loggedOutAt := none },
       { id := "s3", userId := "u2", token := "t3", createdAt := 0,
         expiresAt := 100, lastActivity := 0, isActive := true,
         ipAddress := none, userAgent := none, loggedOutAt := none }],
    auditLogs := [] }

/-- Witness for C8: the reported count plus the remaining active rows
equals the active rows before the call. -/
theorem terminateAllSessions_exact_witness :
    (SessionService.terminateAllSessions 50 "u1" (some "s2") c8Store).1
        + ((SessionService.terminateAllSessions 50 "u1"
            (some "s2") c8Store).2.sessions.filter
            (fun s => s.isActive)).length
      = (c8Store.sessions.filter (fun s => s.isActive)).length :=
  (terminateAllSessions_exact 50 "u1" "s2" c8Store (by decide)).1
